import Mathlib

/-!
Verification of the EPL predictor's team-statistics aggregation engine and
feature-vector construction contract, as implemented in
01_prepare_data.py, 02_train_model.py and app.py.

The embedding is exact over ℚ/ℤ: pandas integer columns become ℤ, Python
true division becomes ℚ division, and a match-history DataFrame becomes a
list of MatchRecord values.  Team→statistics dictionaries (Python dicts in
insertion order) become association lists in the same key order.
-/

namespace EPL

/-- MatchRecord: one row of the match DataFrame, holding the columns of
NEEDED_COLS used by the aggregation (Season is irrelevant to every claim
and omitted). -/
structure MatchRecord where
  HomeTeam : String
  AwayTeam : String
  FTHG : ℤ
  FTAG : ℤ
  FTR : String
  HS : ℤ
  AS : ℤ
  HST : ℤ
  AST : ℤ
deriving DecidableEq

/-- TeamStatistics: the dictionary built per team by calculate_team_stats. -/
structure TeamStats where
  win_rate : ℚ
  draw_rate : ℚ
  loss_rate : ℚ
  avg_goals_scored : ℚ
  avg_goals_conceded : ℚ
  goal_difference : ℚ
  points_per_game : ℚ
  home_win_rate : ℚ
  away_win_rate : ℚ
  home_goals_avg : ℚ
  away_goals_avg : ℚ
  shots_avg : ℚ
  shots_on_target_avg : ℚ
deriving DecidableEq

/-- df[df["HomeTeam"] == team] -/
def homeMatchesOf (df : List MatchRecord) (team : String) : List MatchRecord :=
  df.filter (fun m => m.HomeTeam = team)

/-- df[df["AwayTeam"] == team] -/
def awayMatchesOf (df : List MatchRecord) (team : String) : List MatchRecord :=
  df.filter (fun m => m.AwayTeam = team)

/-- home_games = len(home_matches) -/
def homeGamesOf (df : List MatchRecord) (team : String) : ℕ :=
  (homeMatchesOf df team).length

/-- away_games = len(away_matches) -/
def awayGamesOf (df : List MatchRecord) (team : String) : ℕ :=
  (awayMatchesOf df team).length

/-- home_wins = len(home_matches[home_matches["FTR"] == "H"]) -/
def homeWinsOf (df : List MatchRecord) (team : String) : ℕ :=
  ((homeMatchesOf df team).filter (fun m => m.FTR = "H")).length

/-- away_wins = len(away_matches[away_matches["FTR"] == "A"]) -/
def awayWinsOf (df : List MatchRecord) (team : String) : ℕ :=
  ((awayMatchesOf df team).filter (fun m => m.FTR = "A")).length

/-- home_draws = len(home_matches[home_matches["FTR"] == "D"]) -/
def homeDrawsOf (df : List MatchRecord) (team : String) : ℕ :=
  ((homeMatchesOf df team).filter (fun m => m.FTR = "D")).length

/-- away_draws = len(away_matches[away_matches["FTR"] == "D"]) -/
def awayDrawsOf (df : List MatchRecord) (team : String) : ℕ :=
  ((awayMatchesOf df team).filter (fun m => m.FTR = "D")).length

/-- total_games = home_games + away_games -/
def totalGamesOf (df : List MatchRecord) (team : String) : ℕ :=
  homeGamesOf df team + awayGamesOf df team

/-- total_wins = home_wins + away_wins -/
def totalWinsOf (df : List MatchRecord) (team : String) : ℕ :=
  homeWinsOf df team + awayWinsOf df team

/-- total_draws = home_draws + away_draws -/
def totalDrawsOf (df : List MatchRecord) (team : String) : ℕ :=
  homeDrawsOf df team + awayDrawsOf df team

/-- goals_scored = home_matches["FTHG"].sum() + away_matches["FTAG"].sum() -/
def goalsScoredOf (df : List MatchRecord) (team : String) : ℤ :=
  ((homeMatchesOf df team).map (·.FTHG)).sum + ((awayMatchesOf df team).map (·.FTAG)).sum

/-- goals_conceded = home_matches["FTAG"].sum() + away_matches["FTHG"].sum() -/
def goalsConcededOf (df : List MatchRecord) (team : String) : ℤ :=
  ((homeMatchesOf df team).map (·.FTAG)).sum + ((awayMatchesOf df team).map (·.FTHG)).sum

/-- Shot totals: home_matches["HS"].sum() + away_matches["AS"].sum() -/
def shotsOf (df : List MatchRecord) (team : String) : ℤ :=
  ((homeMatchesOf df team).map (·.HS)).sum + ((awayMatchesOf df team).map (·.AS)).sum

/-- Shots on target: home_matches["HST"].sum() + away_matches["AST"].sum() -/
def shotsOnTargetOf (df : List MatchRecord) (team : String) : ℤ :=
  ((homeMatchesOf df team).map (·.HST)).sum + ((awayMatchesOf df team).map (·.AST)).sum

/-- The per-team statistics dictionary built in the loop body of
calculate_team_stats (01_prepare_data.py lines 311-346).  Python int
true-division is ℚ division; every denominator is max(count, 1) exactly as
in the source; the two .mean() fields carry the source's explicit
zero-game conditional. -/
def teamStatsFor (df : List MatchRecord) (team : String) : TeamStats :=
  let home_games := homeGamesOf df team
  let away_games := awayGamesOf df team
  let total_games := totalGamesOf df team
  let total_wins := totalWinsOf df team
  let total_draws := totalDrawsOf df team
  let total_losses : ℤ := (total_games : ℤ) - total_wins - total_draws
  let goals_scored := goalsScoredOf df team
  let goals_conceded := goalsConcededOf df team
  let points : ℤ := (total_wins : ℤ) * 3 + total_draws
  { win_rate := (total_wins : ℚ) / (max total_games 1 : ℕ)
    draw_rate := (total_draws : ℚ) / (max total_games 1 : ℕ)
    loss_rate := (total_losses : ℚ) / (max total_games 1 : ℕ)
    avg_goals_scored := (goals_scored : ℚ) / (max total_games 1 : ℕ)
    avg_goals_conceded := (goals_conceded : ℚ) / (max total_games 1 : ℕ)
    goal_difference := ((goals_scored - goals_conceded : ℤ) : ℚ) / (max total_games 1 : ℕ)
    points_per_game := (points : ℚ) / (max total_games 1 : ℕ)
    home_win_rate := (homeWinsOf df team : ℚ) / (max home_games 1 : ℕ)
    away_win_rate := (awayWinsOf df team : ℚ) / (max away_games 1 : ℕ)
    home_goals_avg :=
      if 0 < home_games then
        ((((homeMatchesOf df team).map (·.FTHG)).sum : ℤ) : ℚ) / (home_games : ℕ)
      else 0
    away_goals_avg :=
      if 0 < away_games then
        ((((awayMatchesOf df team).map (·.FTAG)).sum : ℤ) : ℚ) / (away_games : ℕ)
      else 0
    shots_avg := (shotsOf df team : ℚ) / (max total_games 1 : ℕ)
    shots_on_target_avg := (shotsOnTargetOf df team : ℚ) / (max total_games 1 : ℕ) }

/-- sorted(set(df["HomeTeam"].unique()) | set(df["AwayTeam"].unique())) -/
def sortedTeams (df : List MatchRecord) : List String :=
  ((df.map (·.HomeTeam) ++ df.map (·.AwayTeam)).dedup).insertionSort (· ≤ ·)

/-- calculate_team_stats (01_prepare_data.py lines 307-348): a mapping from
each team appearing in df to its TeamStats, in sorted team order (the
Python dict is filled iterating the sorted team list). -/
def calculate_team_stats (df : List MatchRecord) : List (String × TeamStats) :=
  (sortedTeams df).map (fun team => (team, teamStatsFor df team))

/-- The all-zero statistics record. -/
def zeroStats : TeamStats :=
  { win_rate := 0, draw_rate := 0, loss_rate := 0, avg_goals_scored := 0
    avg_goals_conceded := 0, goal_difference := 0, points_per_game := 0
    home_win_rate := 0, away_win_rate := 0, home_goals_avg := 0
    away_goals_avg := 0, shots_avg := 0, shots_on_target_avg := 0 }

/-- Scenario history for the concrete witnesses: team T plays 10 home
matches, winning 5 (2-0), drawing 3 (0-0) and losing 2 (0-2 and 0-3),
so T scores 10 and concedes 5. -/
def dfScenario : List MatchRecord :=
  [ ⟨"T", "U", 2, 0, "H", 10, 5, 4, 2⟩, ⟨"T", "U", 2, 0, "H", 10, 5, 4, 2⟩,
    ⟨"T", "U", 2, 0, "H", 10, 5, 4, 2⟩, ⟨"T", "U", 2, 0, "H", 10, 5, 4, 2⟩,
    ⟨"T", "U", 2, 0, "H", 10, 5, 4, 2⟩, ⟨"T", "U", 0, 0, "D", 8, 8, 3, 3⟩,
    ⟨"T", "U", 0, 0, "D", 8, 8, 3, 3⟩, ⟨"T", "U", 0, 0, "D", 8, 8, 3, 3⟩,
    ⟨"T", "U", 0, 2, "A", 6, 12, 2, 6⟩, ⟨"T", "U", 0, 3, "A", 6, 14, 2, 7⟩ ]

/-- C4: a team whose combined record over the match history is 5 wins,
3 draws (hence 2 losses) in 10 games, scoring 10 and conceding 5, gets
win_rate 0.5, draw_rate 0.3, loss_rate 0.2, goal_difference 0.5 and
points_per_game (3·5+3)/10 = 1.8 from calculate_team_stats's per-team
computation. -/
theorem c4_scenario_rates (df : List MatchRecord) (t : String)
    (hw : totalWinsOf df t = 5) (hd : totalDrawsOf df t = 3)
    (hg : totalGamesOf df t = 10)
    (hgs : goalsScoredOf df t = 10) (hgc : goalsConcededOf df t = 5) :
    (teamStatsFor df t).win_rate = 1/2 ∧
    (teamStatsFor df t).draw_rate = 3/10 ∧
    (teamStatsFor df t).loss_rate = 1/5 ∧
    (teamStatsFor df t).goal_difference = 1/2 ∧
    (teamStatsFor df t).points_per_game = 9/5 := by
  simp only [teamStatsFor, hw, hd, hg, hgs, hgc]
  norm_num

/-- Concrete instance of C4 on the scenario history. -/
theorem c4_scenario_rates_witness :
    (teamStatsFor dfScenario "T").win_rate = 1/2 ∧
    (teamStatsFor dfScenario "T").draw_rate = 3/10 ∧
    (teamStatsFor dfScenario "T").loss_rate = 1/5 ∧
    (teamStatsFor dfScenario "T").goal_difference = 1/2 ∧
    (teamStatsFor dfScenario "T").points_per_game = 9/5 :=
  c4_scenario_rates dfScenario "T" (by decide) (by decide) (by decide)
    (by decide) (by decide)

/-- C5: a team with zero recorded games gets the all-zero statistics
record — every rate and average is 0 — and the computation is a total
function: every denominator is guarded by max(count, 1) or by the
explicit zero-game conditional, so no division error can occur. -/
theorem c5_zero_games (df : List MatchRecord) (t : String)
    (h : totalGamesOf df t = 0) :
    teamStatsFor df t = zeroStats := by
  have hhome : homeGamesOf df t = 0 := by
    have := h
    simp only [totalGamesOf, Nat.add_eq_zero] at this
    exact this.1
  have haway : awayGamesOf df t = 0 := by
    have := h
    simp only [totalGamesOf, Nat.add_eq_zero] at this
    exact this.2
  have hhm : homeMatchesOf df t = [] := List.length_eq_zero.mp hhome
  have ham : awayMatchesOf df t = [] := List.length_eq_zero.mp haway
  simp [teamStatsFor, zeroStats, totalGamesOf, totalWinsOf, totalDrawsOf,
    homeWinsOf, awayWinsOf, homeDrawsOf, awayDrawsOf, goalsScoredOf,
    goalsConcededOf, shotsOf, shotsOnTargetOf, homeGamesOf, awayGamesOf,
    hhm, ham]

/-- Concrete instance of C5: team Z never appears in the scenario history. -/
theorem c5_zero_games_witness :
    teamStatsFor dfScenario "Z" = zeroStats :=
  c5_zero_games dfScenario "Z" (by decide)

section PermInvariance

lemma homeMatchesOf_perm {df₁ df₂ : List MatchRecord} (h : df₁.Perm df₂) (t : String) :
    (homeMatchesOf df₁ t).Perm (homeMatchesOf df₂ t) := h.filter _

lemma awayMatchesOf_perm {df₁ df₂ : List MatchRecord} (h : df₁.Perm df₂) (t : String) :
    (awayMatchesOf df₁ t).Perm (awayMatchesOf df₂ t) := h.filter _

lemma teamStatsFor_perm {df₁ df₂ : List MatchRecord} (h : df₁.Perm df₂) (t : String) :
    teamStatsFor df₁ t = teamStatsFor df₂ t := by
  have hh := homeMatchesOf_perm h t
  have ha := awayMatchesOf_perm h t
  have l1 : homeGamesOf df₁ t = homeGamesOf df₂ t := hh.length_eq
  have l2 : awayGamesOf df₁ t = awayGamesOf df₂ t := ha.length_eq
  have l3 : homeWinsOf df₁ t = homeWinsOf df₂ t := (hh.filter _).length_eq
  have l4 : awayWinsOf df₁ t = awayWinsOf df₂ t := (ha.filter _).length_eq
  have l5 : homeDrawsOf df₁ t = homeDrawsOf df₂ t := (hh.filter _).length_eq
  have l6 : awayDrawsOf df₁ t = awayDrawsOf df₂ t := (ha.filter _).length_eq
  have s1 : ((homeMatchesOf df₁ t).map (·.FTHG)).sum
      = ((homeMatchesOf df₂ t).map (·.FTHG)).sum := (hh.map _).sum_eq
  have s2 : ((homeMatchesOf df₁ t).map (·.FTAG)).sum
      = ((homeMatchesOf df₂ t).map (·.FTAG)).sum := (hh.map _).sum_eq
  have s3 : ((awayMatchesOf df₁ t).map (·.FTHG)).sum
      = ((awayMatchesOf df₂ t).map (·.FTHG)).sum := (ha.map _).sum_eq
  have s4 : ((awayMatchesOf df₁ t).map (·.FTAG)).sum
      = ((awayMatchesOf df₂ t).map (·.FTAG)).sum := (ha.map _).sum_eq
  have s5 : ((homeMatchesOf df₁ t).map (·.HS)).sum
      = ((homeMatchesOf df₂ t).map (·.HS)).sum := (hh.map _).sum_eq
  have s6 : ((awayMatchesOf df₁ t).map (·.AS)).sum
      = ((awayMatchesOf df₂ t).map (·.AS)).sum := (ha.map _).sum_eq
  have s7 : ((homeMatchesOf df₁ t).map (·.HST)).sum
      = ((homeMatchesOf df₂ t).map (·.HST)).sum := (hh.map _).sum_eq
  have s8 : ((awayMatchesOf df₁ t).map (·.AST)).sum
      = ((awayMatchesOf df₂ t).map (·.AST)).sum := (ha.map _).sum_eq
  unfold teamStatsFor totalGamesOf totalWinsOf totalDrawsOf goalsScoredOf
    goalsConcededOf shotsOf shotsOnTargetOf
  rw [l1, l2, l3, l4, l5, l6, s1, s2, s3, s4, s5, s6, s7, s8]

lemma sortedTeams_perm {df₁ df₂ : List MatchRecord} (h : df₁.Perm df₂) :
    sortedTeams df₁ = sortedTeams df₂ := by
  have hnames : (df₁.map (·.HomeTeam) ++ df₁.map (·.AwayTeam)).Perm
      (df₂.map (·.HomeTeam) ++ df₂.map (·.AwayTeam)) :=
    (h.map _).append (h.map _)
  have hd := hnames.dedup
  have hp : (sortedTeams df₁).Perm (sortedTeams df₂) :=
    ((List.perm_insertionSort _ _).trans hd).trans (List.perm_insertionSort _ _).symm
  exact List.eq_of_perm_of_sorted hp (List.sorted_insertionSort _ _)
    (List.sorted_insertionSort _ _)

end PermInvariance

/-- C3: calculate_team_stats is order-independent — permuting the match
history leaves the whole team→statistics mapping unchanged. -/
theorem c3_perm_invariant (df₁ df₂ : List MatchRecord) (h : df₁.Perm df₂) :
    calculate_team_stats df₁ = calculate_team_stats df₂ := by
  unfold calculate_team_stats
  rw [sortedTeams_perm h]
  exact List.map_congr_left (fun t _ => by rw [teamStatsFor_perm h t])

/-- Concrete instance of C3: swapping two matches of a history leaves the
output unchanged. -/
theorem c3_perm_invariant_witness :
    calculate_team_stats [⟨"T", "U", 2, 0, "H", 10, 5, 4, 2⟩, ⟨"U", "T", 1, 1, "D", 8, 8, 3, 3⟩]
      = calculate_team_stats
        [⟨"U", "T", 1, 1, "D", 8, 8, 3, 3⟩, ⟨"T", "U", 2, 0, "H", 10, 5, 4, 2⟩] :=
  c3_perm_invariant _ _ (List.Perm.swap _ _ _)

section DoubleCounting

lemma sum_indicator (S : List String) (a : String) (hnd : S.Nodup) (ha : a ∈ S) :
    (S.map fun t => if a = t then (1 : ℕ) else 0).sum = 1 := by
  induction S with
  | nil => cases ha
  | cons b S ih =>
    rcases List.mem_cons.mp ha with hab | haS
    · subst hab
      have hnotin : a ∉ S := (List.nodup_cons.mp hnd).1
      simp only [List.map_cons, List.sum_cons, if_pos rfl]
      have : (S.map fun t => if a = t then (1 : ℕ) else 0).sum = 0 := by
        apply List.sum_eq_zero
        intro x hx
        rcases List.mem_map.mp hx with ⟨t, htS, hxt⟩
        by_cases hat : a = t
        · exact absurd (hat ▸ htS) hnotin
        · simp [hat] at hxt; omega
      rw [this]; simp
    · have hab : a ≠ b := by
        intro he; exact (List.nodup_cons.mp hnd).1 (he ▸ haS)
      simp only [List.map_cons, List.sum_cons, if_neg hab]
      rw [ih (List.nodup_cons.mp hnd).2 haS]

lemma sum_length_filter (S : List String) (L : List MatchRecord)
    (f : MatchRecord → String) (hnd : S.Nodup) (hsub : ∀ m ∈ L, f m ∈ S) :
    (S.map fun t => (L.filter (fun m => f m = t)).length).sum = L.length := by
  induction L with
  | nil => simp
  | cons m L ih =>
    have hmem : f m ∈ S := hsub m (List.mem_cons_self m L)
    have hrest : ∀ x ∈ L, f x ∈ S := fun x hx => hsub x (List.mem_cons_of_mem m hx)
    have hstep : ∀ t : String,
        ((m :: L).filter (fun x => f x = t)).length
          = (if f m = t then 1 else 0) + (L.filter (fun x => f x = t)).length := by
      intro t
      by_cases hm : f m = t
      · simp [List.filter_cons, hm]; omega
      · simp [List.filter_cons, hm]
    calc (S.map fun t => ((m :: L).filter (fun x => f x = t)).length).sum
        = (S.map fun t =>
            (if f m = t then 1 else 0) + (L.filter (fun x => f x = t)).length).sum := by
          exact congrArg List.sum (List.map_congr_left (fun t _ => hstep t))
      _ = (S.map fun t => if f m = t then (1 : ℕ) else 0).sum
            + (S.map fun t => (L.filter (fun x => f x = t)).length).sum := by
          rw [← List.sum_map_add]
      _ = 1 + L.length := by rw [sum_indicator S (f m) hnd hmem, ih hrest]
      _ = (m :: L).length := by simp [Nat.add_comm]

lemma sortedTeams_nodup (df : List MatchRecord) : (sortedTeams df).Nodup := by
  unfold sortedTeams
  exact (List.perm_insertionSort _ _).symm.nodup (List.nodup_dedup _)

lemma mem_sortedTeams_of_home {df : List MatchRecord} {m : MatchRecord}
    (hm : m ∈ df) : m.HomeTeam ∈ sortedTeams df := by
  unfold sortedTeams
  rw [List.mem_insertionSort, List.mem_dedup, List.mem_append]
  exact Or.inl (List.mem_map.mpr ⟨m, hm, rfl⟩)

lemma mem_sortedTeams_of_away {df : List MatchRecord} {m : MatchRecord}
    (hm : m ∈ df) : m.AwayTeam ∈ sortedTeams df := by
  unfold sortedTeams
  rw [List.mem_insertionSort, List.mem_dedup, List.mem_append]
  exact Or.inr (List.mem_map.mpr ⟨m, hm, rfl⟩)

end DoubleCounting

/-- C8: summed over the teams of the aggregator's output, home_games +
away_games (as computed inside calculate_team_stats) equals twice the
number of matches: every match is counted once as a home game of its home
team and once as an away game of its away team. -/
theorem c8_double_counting (df : List MatchRecord) :
    ((calculate_team_stats df).map
      (fun p => homeGamesOf df p.1 + awayGamesOf df p.1)).sum = 2 * df.length := by
  unfold calculate_team_stats
  rw [List.map_map]
  have hhome : ((sortedTeams df).map fun t => homeGamesOf df t).sum = df.length :=
    sum_length_filter (sortedTeams df) df (·.HomeTeam) (sortedTeams_nodup df)
      (fun m hm => mem_sortedTeams_of_home hm)
  have haway : ((sortedTeams df).map fun t => awayGamesOf df t).sum = df.length :=
    sum_length_filter (sortedTeams df) df (·.AwayTeam) (sortedTeams_nodup df)
      (fun m hm => mem_sortedTeams_of_away hm)
  have hsplit : ((sortedTeams df).map
      ((fun p : String × TeamStats => homeGamesOf df p.1 + awayGamesOf df p.1) ∘
        fun team => (team, teamStatsFor df team))).sum
      = ((sortedTeams df).map fun t => homeGamesOf df t).sum
        + ((sortedTeams df).map fun t => awayGamesOf df t).sum := by
    rw [← List.sum_map_add]
    rfl
  rw [hsplit, hhome, haway]
  exact (two_mul df.length).symm

/-- Result encoding used for the training target:
the dict lookup {"H": 0, "D": 1, "A": 2}[match["FTR"]]
(01_prepare_data.py line 403); none models the KeyError case. -/
def resultCode (r : String) : Option ℕ :=
  if r = "H" then some 0
  else if r = "D" then some 1
  else if r = "A" then some 2
  else none

/-- Row dictionary built by create_training_data for one match
(01_prepare_data.py lines 379-404), with hs and as_ the home and away
TeamStatistics: 23 feature columns followed by the "result" target. -/
def create_training_row (m : MatchRecord) (hs as_ : TeamStats) :
    Option (List (String × ℚ)) :=
  (resultCode m.FTR).map (fun result =>
    [ ("home_win_rate", hs.win_rate),
      ("home_draw_rate", hs.draw_rate),
      ("home_avg_goals_scored", hs.avg_goals_scored),
      ("home_avg_goals_conceded", hs.avg_goals_conceded),
      ("home_goal_diff", hs.goal_difference),
      ("home_ppg", hs.points_per_game),
      ("home_home_win_rate", hs.home_win_rate),
      ("home_shots_avg", hs.shots_avg),
      ("home_sot_avg", hs.shots_on_target_avg),
      ("away_win_rate", as_.win_rate),
      ("away_draw_rate", as_.draw_rate),
      ("away_avg_goals_scored", as_.avg_goals_scored),
      ("away_avg_goals_conceded", as_.avg_goals_conceded),
      ("away_goal_diff", as_.goal_difference),
      ("away_ppg", as_.points_per_game),
      ("away_away_win_rate", as_.away_win_rate),
      ("away_shots_avg", as_.shots_avg),
      ("away_sot_avg", as_.shots_on_target_avg),
      ("win_rate_diff", hs.win_rate - as_.win_rate),
      ("ppg_diff", hs.points_per_game - as_.points_per_game),
      ("goal_diff_diff", hs.goal_difference - as_.goal_difference),
      ("attack_vs_defense", hs.avg_goals_scored - as_.avg_goals_conceded),
      ("defense_vs_attack", as_.avg_goals_scored - hs.avg_goals_conceded),
      ("result", (result : ℚ)) ])

/-- Feature dictionary built independently by the serving path
(app.py lines 91-115) from the same two TeamStatistics records. -/
def predictFeatures (hs as_ : TeamStats) : List (String × ℚ) :=
  [ ("home_win_rate", hs.win_rate),
    ("home_draw_rate", hs.draw_rate),
    ("home_avg_goals_scored", hs.avg_goals_scored),
    ("home_avg_goals_conceded", hs.avg_goals_conceded),
    ("home_goal_diff", hs.goal_difference),
    ("home_ppg", hs.points_per_game),
    ("home_home_win_rate", hs.home_win_rate),
    ("home_shots_avg", hs.shots_avg),
    ("home_sot_avg", hs.shots_on_target_avg),
    ("away_win_rate", as_.win_rate),
    ("away_draw_rate", as_.draw_rate),
    ("away_avg_goals_scored", as_.avg_goals_scored),
    ("away_avg_goals_conceded", as_.avg_goals_conceded),
    ("away_goal_diff", as_.goal_difference),
    ("away_ppg", as_.points_per_game),
    ("away_away_win_rate", as_.away_win_rate),
    ("away_shots_avg", as_.shots_avg),
    ("away_sot_avg", as_.shots_on_target_avg),
    ("win_rate_diff", hs.win_rate - as_.win_rate),
    ("ppg_diff", hs.points_per_game - as_.points_per_game),
    ("goal_diff_diff", hs.goal_difference - as_.goal_difference),
    ("attack_vs_defense", hs.avg_goals_scored - as_.avg_goals_conceded),
    ("defense_vs_attack", as_.avg_goals_scored - hs.avg_goals_conceded) ]

/-- C1: for every pair of team statistics, the training row built by
create_training_data, with its "result" target column removed, is exactly
the feature dictionary built by the serving path — the same feature names
in the same order with the same values, so training-time and serving-time
feature construction are one and the same mapping (whenever the training
row exists at all, i.e. the match has a valid result code). -/
theorem c1_feature_schema_identical (m : MatchRecord) (hs as_ : TeamStats) :
    (create_training_row m hs as_).map (List.filter (fun p => p.1 ≠ "result"))
      = (resultCode m.FTR).map (fun _ => predictFeatures hs as_) := by
  cases hr : resultCode m.FTR with
  | none => simp [create_training_row, hr]
  | some r =>
    simp only [create_training_row, hr, Option.map_some']
    rfl

/-- Class labels used at training time (02_train_model.py line 198). -/
def label_names : List String := ["Home Win", "Draw", "Away Win"]

/-- Outcome labels used at serving time (app.py line 127). -/
def outcomes : List String := ["Home Win", "Draw", "Away Win"]

/-- C10: the target encoding {"H": 0, "D": 1, "A": 2}, the training-time
class-label list and the serving-time outcome list are mutually
consistent: class index 0 is the home win under all three, 1 the draw,
2 the away win, and the two label lists coincide entirely. -/
theorem c10_label_consistency :
    resultCode "H" = some 0 ∧ outcomes[0]? = some "Home Win"
      ∧ label_names[0]? = some "Home Win"
      ∧ resultCode "D" = some 1 ∧ outcomes[1]? = some "Draw"
      ∧ label_names[1]? = some "Draw"
      ∧ resultCode "A" = some 2 ∧ outcomes[2]? = some "Away Win"
      ∧ label_names[2]? = some "Away Win"
      ∧ outcomes = label_names := by
  decide

/-- Raw per-team counters computed inside calculate_team_stats's loop
body before any division: match counts per venue and the venue-split
goal and shot sums.  Every TeamStats field is a function of these. -/
structure TeamCounters where
  home_wins : ℕ
  home_draws : ℕ
  home_games : ℕ
  away_wins : ℕ
  away_draws : ℕ
  away_games : ℕ
  home_goals_for : ℤ
  home_goals_against : ℤ
  away_goals_for : ℤ
  away_goals_against : ℤ
  home_shots : ℤ
  away_shots : ℤ
  home_sot : ℤ
  away_sot : ℤ
deriving DecidableEq

/-- Componentwise sum of raw counters. -/
def addCounters (a b : TeamCounters) : TeamCounters :=
  { home_wins := a.home_wins + b.home_wins
    home_draws := a.home_draws + b.home_draws
    home_games := a.home_games + b.home_games
    away_wins := a.away_wins + b.away_wins
    away_draws := a.away_draws + b.away_draws
    away_games := a.away_games + b.away_games
    home_goals_for := a.home_goals_for + b.home_goals_for
    home_goals_against := a.home_goals_against + b.home_goals_against
    away_goals_for := a.away_goals_for + b.away_goals_for
    away_goals_against := a.away_goals_against + b.away_goals_against
    home_shots := a.home_shots + b.home_shots
    away_shots := a.away_shots + b.away_shots
    home_sot := a.home_sot + b.home_sot
    away_sot := a.away_sot + b.away_sot }

instance : Add TeamCounters := ⟨addCounters⟩

/-- The raw counters a given match history yields for a given team. -/
def countersFor (df : List MatchRecord) (team : String) : TeamCounters :=
  { home_wins := homeWinsOf df team
    home_draws := homeDrawsOf df team
    home_games := homeGamesOf df team
    away_wins := awayWinsOf df team
    away_draws := awayDrawsOf df team
    away_games := awayGamesOf df team
    home_goals_for := ((homeMatchesOf df team).map (·.FTHG)).sum
    home_goals_against := ((homeMatchesOf df team).map (·.FTAG)).sum
    away_goals_for := ((awayMatchesOf df team).map (·.FTAG)).sum
    away_goals_against := ((awayMatchesOf df team).map (·.FTHG)).sum
    home_shots := ((homeMatchesOf df team).map (·.HS)).sum
    away_shots := ((awayMatchesOf df team).map (·.AS)).sum
    home_sot := ((homeMatchesOf df team).map (·.HST)).sum
    away_sot := ((awayMatchesOf df team).map (·.AST)).sum }

/-- The division step of calculate_team_stats, expressed as a function of
the raw counters alone; teamStatsFor df t is definitionally
statsOfCounters (countersFor df t). -/
def statsOfCounters (c : TeamCounters) : TeamStats :=
  let home_games := c.home_games
  let away_games := c.away_games
  let total_games := c.home_games + c.away_games
  let total_wins := c.home_wins + c.away_wins
  let total_draws := c.home_draws + c.away_draws
  let total_losses : ℤ := (total_games : ℤ) - total_wins - total_draws
  let goals_scored : ℤ := c.home_goals_for + c.away_goals_for
  let goals_conceded : ℤ := c.home_goals_against + c.away_goals_against
  let points : ℤ := (total_wins : ℤ) * 3 + total_draws
  { win_rate := (total_wins : ℚ) / (max total_games 1 : ℕ)
    draw_rate := (total_draws : ℚ) / (max total_games 1 : ℕ)
    loss_rate := (total_losses : ℚ) / (max total_games 1 : ℕ)
    avg_goals_scored := (goals_scored : ℚ) / (max total_games 1 : ℕ)
    avg_goals_conceded := (goals_conceded : ℚ) / (max total_games 1 : ℕ)
    goal_difference := ((goals_scored - goals_conceded : ℤ) : ℚ) / (max total_games 1 : ℕ)
    points_per_game := (points : ℚ) / (max total_games 1 : ℕ)
    home_win_rate := (c.home_wins : ℚ) / (max home_games 1 : ℕ)
    away_win_rate := (c.away_wins : ℚ) / (max away_games 1 : ℕ)
    home_goals_avg :=
      if 0 < home_games then ((c.home_goals_for : ℤ) : ℚ) / (home_games : ℕ) else 0
    away_goals_avg :=
      if 0 < away_games then ((c.away_goals_for : ℤ) : ℚ) / (away_games : ℕ) else 0
    shots_avg := ((c.home_shots + c.away_shots : ℤ) : ℚ) / (max total_games 1 : ℕ)
    shots_on_target_avg := ((c.home_sot + c.away_sot : ℤ) : ℚ) / (max total_games 1 : ℕ) }

lemma teamStatsFor_eq_statsOfCounters (df : List MatchRecord) (t : String) :
    teamStatsFor df t = statsOfCounters (countersFor df t) := rfl

lemma countersFor_append (M N : List MatchRecord) (t : String) :
    countersFor (M ++ N) t = countersFor M t + countersFor N t := by
  show countersFor (M ++ N) t = addCounters (countersFor M t) (countersFor N t)
  simp [countersFor, addCounters, homeWinsOf, awayWinsOf, homeDrawsOf,
    awayDrawsOf, homeGamesOf, awayGamesOf, homeMatchesOf, awayMatchesOf,
    List.filter_append]

lemma countersFor_perm {df₁ df₂ : List MatchRecord} (h : df₁.Perm df₂) (t : String) :
    countersFor df₁ t = countersFor df₂ t := by
  have hh := homeMatchesOf_perm h t
  have ha := awayMatchesOf_perm h t
  unfold countersFor homeWinsOf awayWinsOf homeDrawsOf awayDrawsOf
    homeGamesOf awayGamesOf
  rw [hh.length_eq, ha.length_eq, (hh.filter _).length_eq, (ha.filter _).length_eq,
    (hh.filter (fun m => m.FTR = "D")).length_eq,
    (ha.filter (fun m => m.FTR = "D")).length_eq,
    (hh.map (·.FTHG)).sum_eq, (hh.map (·.FTAG)).sum_eq,
    (ha.map (·.FTAG)).sum_eq, (ha.map (·.FTHG)).sum_eq,
    (hh.map (·.HS)).sum_eq, (ha.map (·.AS)).sum_eq,
    (hh.map (·.HST)).sum_eq, (ha.map (·.AST)).sum_eq]

/-- C9: the aggregator is deterministic and total (it is a pure Lean
function of the match list), and associative in the sense that a superset
decomposing as M' ~ M ++ N (equivalently, M is a sub-collection of M')
yields per-team raw counters that are exactly the subset's counters plus
the remainder's — so the superset's statistics never contradict the
subset's: recomputing on the superset restricted to the matches of M
(any reordering R of M) returns exactly calculate_team_stats M, and the
superset's own statistics are the pure division function applied to the
combined counters. -/
theorem c9_superset_consistency (M N M' : List MatchRecord)
    (h : M'.Perm (M ++ N)) :
    (∀ t, countersFor M' t = countersFor M t + countersFor N t) ∧
    (∀ R, R.Perm M → calculate_team_stats R = calculate_team_stats M) ∧
    (∀ t, teamStatsFor M' t = statsOfCounters (countersFor M t + countersFor N t)) := by
  refine ⟨fun t => ?_, fun R hR => ?_, fun t => ?_⟩
  · rw [countersFor_perm h t, countersFor_append]
  · unfold calculate_team_stats
    rw [sortedTeams_perm hR]
    exact List.map_congr_left (fun t _ => by rw [teamStatsFor_perm hR t])
  · rw [teamStatsFor_eq_statsOfCounters, countersFor_perm h t, countersFor_append]

/-- Concrete instance of C9: a two-match history inside a reordered
three-match superset. -/
theorem c9_superset_consistency_witness :
    countersFor [⟨"V", "T", 0, 2, "A", 7, 9, 3, 5⟩, ⟨"T", "U", 2, 0, "H", 10, 5, 4, 2⟩,
        ⟨"U", "T", 1, 1, "D", 8, 8, 3, 3⟩] "T"
      = countersFor [⟨"T", "U", 2, 0, "H", 10, 5, 4, 2⟩, ⟨"U", "T", 1, 1, "D", 8, 8, 3, 3⟩] "T"
        + countersFor [⟨"V", "T", 0, 2, "A", 7, 9, 3, 5⟩] "T" ∧
    calculate_team_stats [⟨"U", "T", 1, 1, "D", 8, 8, 3, 3⟩, ⟨"T", "U", 2, 0, "H", 10, 5, 4, 2⟩]
      = calculate_team_stats [⟨"T", "U", 2, 0, "H", 10, 5, 4, 2⟩, ⟨"U", "T", 1, 1, "D", 8, 8, 3, 3⟩] :=
  ⟨(c9_superset_consistency
        [⟨"T", "U", 2, 0, "H", 10, 5, 4, 2⟩, ⟨"U", "T", 1, 1, "D", 8, 8, 3, 3⟩]
        [⟨"V", "T", 0, 2, "A", 7, 9, 3, 5⟩]
        [⟨"V", "T", 0, 2, "A", 7, 9, 3, 5⟩, ⟨"T", "U", 2, 0, "H", 10, 5, 4, 2⟩,
          ⟨"U", "T", 1, 1, "D", 8, 8, 3, 3⟩] (by decide)).1 "T",
    (c9_superset_consistency
        [⟨"T", "U", 2, 0, "H", 10, 5, 4, 2⟩, ⟨"U", "T", 1, 1, "D", 8, 8, 3, 3⟩]
        [⟨"V", "T", 0, 2, "A", 7, 9, 3, 5⟩]
        [⟨"V", "T", 0, 2, "A", 7, 9, 3, 5⟩, ⟨"T", "U", 2, 0, "H", 10, 5, 4, 2⟩,
          ⟨"U", "T", 1, 1, "D", 8, 8, 3, 3⟩] (by decide)).2.1 _ (by decide)⟩

/-- Python's round() on an exact rational: round half to even. -/
def bankersRound (q : ℚ) : ℤ :=
  if Int.fract q < 1/2 then ⌊q⌋
  else if 1/2 < Int.fract q then ⌊q⌋ + 1
  else if ⌊q⌋ % 2 = 0 then ⌊q⌋ else ⌊q⌋ + 1

/-- round(x, 1): one decimal place. -/
def round1 (q : ℚ) : ℚ := (bankersRound (q * 10) : ℚ) / 10

/-- round(x, 2): two decimal places. -/
def round2 (q : ℚ) : ℚ := (bankersRound (q * 100) : ℚ) / 100

lemma bankersRound_ge_floor (q : ℚ) : ⌊q⌋ ≤ bankersRound q := by
  unfold bankersRound
  split_ifs <;> omega

lemma bankersRound_le_floor_add_one (q : ℚ) : bankersRound q ≤ ⌊q⌋ + 1 := by
  unfold bankersRound
  split_ifs <;> omega

lemma abs_bankersRound_sub_le (q : ℚ) : |(bankersRound q : ℚ) - q| ≤ 1/2 := by
  have h0 : (⌊q⌋ : ℚ) ≤ q := Int.floor_le q
  have h1 : q < ⌊q⌋ + 1 := Int.lt_floor_add_one q
  have hfr : Int.fract q = q - ⌊q⌋ := rfl
  unfold bankersRound
  split_ifs with ha hb hc <;>
    (rw [abs_le]; rw [hfr] at *; push_cast; constructor <;> linarith)

lemma bankersRound_mono {x y : ℚ} (h : x ≤ y) : bankersRound x ≤ bankersRound y := by
  have hf : ⌊x⌋ ≤ ⌊y⌋ := Int.floor_le_floor h
  rcases eq_or_lt_of_le hf with heq | hlt
  · have heqQ : ((⌊x⌋ : ℤ) : ℚ) = ((⌊y⌋ : ℤ) : ℚ) := by rw [heq]
    have hfx : Int.fract x = x - ⌊x⌋ := rfl
    have hfy : Int.fract y = y - ⌊y⌋ := rfl
    unfold bankersRound
    split_ifs <;> rw [hfx, hfy] at * <;> first | omega | linarith
  · have hx1 := bankersRound_le_floor_add_one x
    have hy0 := bankersRound_ge_floor y
    omega

lemma round1_mono {x y : ℚ} (h : x ≤ y) : round1 x ≤ round1 y := by
  unfold round1
  have := bankersRound_mono (mul_le_mul_of_nonneg_right h (by norm_num : (0:ℚ) ≤ 10))
  have hc : ((bankersRound (x * 10) : ℤ) : ℚ) ≤ ((bankersRound (y * 10) : ℤ) : ℚ) := by
    exact_mod_cast this
  linarith

lemma sum_round1_bound (a b c : ℚ) (h : a + b + c = 100) :
    |round1 a + round1 b + round1 c - 100| ≤ 1/10 := by
  have hA := abs_bankersRound_sub_le (a * 10)
  have hB := abs_bankersRound_sub_le (b * 10)
  have hC := abs_bankersRound_sub_le (c * 10)
  set A := bankersRound (a * 10) with hAdef
  set B := bankersRound (b * 10) with hBdef
  set C := bankersRound (c * 10) with hCdef
  have hsum : |((A + B + C : ℤ) : ℚ) - 1000| ≤ 3/2 := by
    rw [abs_le] at hA hB hC ⊢
    push_cast
    constructor <;> linarith
  have hint : |A + B + C - 1000| ≤ 1 := by
    have h2 : |((A + B + C - 1000 : ℤ) : ℚ)| < 2 := by
      have : ((A + B + C - 1000 : ℤ) : ℚ) = ((A + B + C : ℤ) : ℚ) - 1000 := by push_cast; ring
      rw [this]
      exact lt_of_le_of_lt hsum (by norm_num)
    have h3 : |A + B + C - 1000| < 2 := by exact_mod_cast h2
    omega
  unfold round1
  rw [← hAdef, ← hBdef, ← hCdef]
  have : (A : ℚ)/10 + (B : ℚ)/10 + (C : ℚ)/10 - 100 = ((A + B + C - 1000 : ℤ) : ℚ) / 10 := by
    push_cast; ring
  rw [this, abs_div]
  have h10 : |(10 : ℚ)| = 10 := by norm_num
  rw [h10]
  have hcast : |((A + B + C - 1000 : ℤ) : ℚ)| ≤ 1 := by exact_mod_cast hint
  linarith

/-- Artifacts loaded at module level in app.py (lines 30-44): the opaque
trained classifier (predict and predict_proba over the scaled feature
row), the fitted scaler, the stored feature_cols list, the statistics
snapshot and the metadata fields the endpoint reads. -/
structure Artifacts where
  scaler : List ℚ → List ℚ
  model_predict : List ℚ → ℕ
  model_predict_proba : List ℚ → ℚ × ℚ × ℚ
  feature_cols : List String
  team_stats : List (String × TeamStats)
  model_type : String
  test_accuracy : ℚ

/-- Service state produced by app.py's module-level loading: the artifacts
plus TEAMS = sorted(team_stats.keys()). -/
structure ServiceState where
  arts : Artifacts
  TEAMS : List String

/-- Module-level artifact loading (app.py lines 30-45).  It performs no
validation of any kind: it is a total function of the artifact bundle. -/
def loadService (arts : Artifacts) : ServiceState :=
  { arts := arts, TEAMS := (arts.team_stats.map (·.1)).insertionSort (· ≤ ·) }

/-- Python truthiness of data.get("..."): a missing key (None) or an empty
string is falsy. -/
def blankName (o : Option String) : Prop := o = none ∨ o = some ""

instance : DecidablePred blankName := fun o => by
  unfold blankName
  infer_instance

/-- Dictionary membership / lookup in the team_stats snapshot. -/
def lookupTeam (stats : List (String × TeamStats)) (t : String) : Option TeamStats :=
  (stats.find? (fun p => p.1 == t)).map (·.2)

/-- X = np.array([[features[col] for col in feature_cols]]); a stored
column name absent from the features dict is a KeyError (none). -/
def buildX (cols : List String) (features : List (String × ℚ)) : Option (List ℚ) :=
  cols.mapM (fun c => (features.find? (fun p => p.1 == c)).map (·.2))

/-- Success payload of /api/predict (app.py lines 129-150); model_info
is flattened into model_type and accuracy. -/
structure PredictResponse where
  prediction : String
  probabilities : List (String × ℚ)
  home_team : String
  away_team : String
  model_type : String
  accuracy : ℚ
  team_comparison : List (String × ℚ)
deriving DecidableEq

/-- Outcome of one /api/predict request: a 400 validation error payload,
an unhandled exception (KeyError/IndexError, an HTTP 500), or the
success JSON. -/
inductive PredictResult where
  | validationError (msg : String)
  | serverError
  | ok (r : PredictResponse)

def isValidationError : PredictResult → Bool
  | .validationError _ => true
  | _ => false

def isOk : PredictResult → Bool
  | .ok _ => true
  | _ => false

/-- Classifier call and JSON assembly on the scaled row (app.py lines
120-150): X_scaled = scaler.transform(X), prediction = model.predict,
probabilities = model.predict_proba, label = outcomes[prediction]. -/
def assembleResponse (arts : Artifacts) (home_team away_team : String)
    (hs as_ : TeamStats) (X : List ℚ) : PredictResult :=
  match outcomes[arts.model_predict (arts.scaler X)]? with
  | none => .serverError
  | some label =>
    .ok { prediction := label
          probabilities :=
            [("home_win", round1 ((arts.model_predict_proba (arts.scaler X)).1 * 100)),
             ("draw", round1 ((arts.model_predict_proba (arts.scaler X)).2.1 * 100)),
             ("away_win", round1 ((arts.model_predict_proba (arts.scaler X)).2.2 * 100))]
          home_team := home_team
          away_team := away_team
          model_type := arts.model_type
          accuracy := round1 (arts.test_accuracy * 100)
          team_comparison :=
            [("home_ppg", round2 hs.points_per_game),
             ("away_ppg", round2 as_.points_per_game),
             ("home_goals_avg", round2 hs.avg_goals_scored),
             ("away_goals_avg", round2 as_.avg_goals_scored),
             ("home_win_rate", round1 (hs.win_rate * 100)),
             ("away_win_rate", round1 (as_.win_rate * 100))] }

/-- Model-invoking tail of predict (app.py lines 117-150), reached only
after validation: build the feature row in feature_cols order, then
scale, classify and assemble the JSON. -/
def predictModel (arts : Artifacts) (home_team away_team : String)
    (hs as_ : TeamStats) : PredictResult :=
  match buildX arts.feature_cols (predictFeatures hs as_) with
  | none => .serverError
  | some X => assembleResponse arts home_team away_team hs as_ X

/-- The /api/predict endpoint (app.py lines 67-150): validation first —
missing or empty names, identical teams, unknown teams — then the
model-invoking tail. -/
def predict (arts : Artifacts) (home_team away_team : Option String) :
    PredictResult :=
  if blankName home_team ∨ blankName away_team then
    .validationError "Please select both teams"
  else if home_team = away_team then
    .validationError "Home and away teams must be different"
  else
    match lookupTeam arts.team_stats (home_team.getD ""),
        lookupTeam arts.team_stats (away_team.getD "") with
    | some hs, some as_ =>
      predictModel arts (home_team.getD "") (away_team.getD "") hs as_
    | _, _ => .validationError "Unknown team selected"

/-- The feature-name schema defined by the feature-vector construction:
its 23 names in order (independent of the statistics values). -/
def builderSchema : List String :=
  (predictFeatures zeroStats zeroStats).map (·.1)

lemma predictFeatures_names (hs as_ : TeamStats) :
    (predictFeatures hs as_).map (·.1) = builderSchema := rfl

lemma find_in_features (hs as_ : TeamStats) (c : String) (hc : c ∈ builderSchema) :
    (((predictFeatures hs as_).find? (fun p => p.1 == c)).map (·.2)).isSome = true := by
  fin_cases hc <;> rfl

lemma buildX_isSome (cols : List String) (hs as_ : TeamStats)
    (h : ∀ c ∈ cols, c ∈ builderSchema) :
    (buildX cols (predictFeatures hs as_)).isSome = true := by
  induction cols with
  | nil => rfl
  | cons c cs ih =>
    have h1 := find_in_features hs as_ c (h c (List.mem_cons_self c cs))
    obtain ⟨v, hv⟩ := Option.isSome_iff_exists.mp h1
    have ih' := ih (fun x hx => h x (List.mem_cons_of_mem c hx))
    obtain ⟨xs, hxs⟩ := Option.isSome_iff_exists.mp ih'
    unfold buildX at hxs ⊢
    rw [List.mapM_cons, hv, hxs]
    rfl

/-- Concrete artifact bundle whose stored feature_cols disagrees with the
builder's 23-name schema in both length and order, with an otherwise
well-behaved model. -/
def artsMismatch : Artifacts :=
  { scaler := fun v => v
    model_predict := fun _ => 0
    model_predict_proba := fun _ => (1, 0, 0)
    feature_cols := ["home_win_rate"]
    team_stats := [("A", zeroStats), ("B", zeroStats)]
    model_type := "Random Forest"
    test_accuracy := 1/2 }

/-- Refutation of C2 as stated: this bundle's feature_cols disagrees with
the builder's schema in length (1 vs 23) and order, yet module-level
loading succeeds (it is a total function with no contract check — no
ContractMismatchError exists anywhere in app.py) and the service answers
a prediction request under the mismatched contract. -/
theorem c2_counterexample :
    artsMismatch.feature_cols.length ≠ builderSchema.length ∧
    artsMismatch.feature_cols ≠ builderSchema ∧
    isOk (predict (loadService artsMismatch).arts (some "A") (some "B")) = true :=
  ⟨by decide, by decide, by rfl⟩

/-- C2 amended: module-level loading never validates the stored
feature_names against the feature construction's schema — startup always
succeeds, and even under a feature_cols list disagreeing with the schema
the service still answers prediction requests (whenever each stored name
is some schema name, so that the per-request dict lookups succeed, and
the classifier's class index is in range). -/
theorem c2_no_contract_check (arts : Artifacts) (h a : String)
    (hmis : arts.feature_cols ≠ builderSchema)
    (hcols : ∀ c ∈ arts.feature_cols, c ∈ builderSchema)
    (hidx : ∀ v, arts.model_predict v < 3)
    (hne : h ≠ a) (hh : h ≠ "") (ha : a ≠ "")
    (hhs : (lookupTeam arts.team_stats h).isSome = true)
    (has : (lookupTeam arts.team_stats a).isSome = true) :
    isOk (predict (loadService arts).arts (some h) (some a)) = true := by
  obtain ⟨hs, hhs'⟩ := Option.isSome_iff_exists.mp hhs
  obtain ⟨as_, has'⟩ := Option.isSome_iff_exists.mp has
  obtain ⟨X, hX'⟩ := Option.isSome_iff_exists.mp (buildX_isSome arts.feature_cols hs as_ hcols)
  show isOk (predict arts (some h) (some a)) = true
  unfold predict
  rw [if_neg, if_neg]
  · simp only [Option.getD_some]
    rw [hhs', has']
    show isOk (predictModel arts h a hs as_) = true
    unfold predictModel
    rw [hX']
    show isOk (assembleResponse arts h a hs as_ X) = true
    unfold assembleResponse
    have hlt : arts.model_predict (arts.scaler X) < outcomes.length :=
      hidx (arts.scaler X)
    rw [List.getElem?_eq_getElem hlt]
    rfl
  · simp [hne]
  · simp [blankName, hh, ha]

/-- Concrete instance of the amended C2 on the mismatched bundle. -/
theorem c2_no_contract_check_witness :
    isOk (predict (loadService artsMismatch).arts (some "A") (some "B")) = true :=
  c2_no_contract_check artsMismatch "A" "B" (by decide) (by decide)
    (fun _ => by show (0 : ℕ) < 3; decide) (by decide) (by decide) (by decide)
    (by decide) (by decide)

lemma isValidationError_assembleResponse (arts : Artifacts) (h a : String)
    (hs as_ : TeamStats) (X : List ℚ) :
    isValidationError (assembleResponse arts h a hs as_ X) = false := by
  unfold assembleResponse
  cases outcomes[arts.model_predict (arts.scaler X)]? with
  | none => rfl
  | some label => rfl

lemma isValidationError_predictModel (arts : Artifacts) (h a : String)
    (hs as_ : TeamStats) :
    isValidationError (predictModel arts h a hs as_) = false := by
  unfold predictModel
  cases buildX arts.feature_cols (predictFeatures hs as_) with
  | none => rfl
  | some X => exact isValidationError_assembleResponse arts h a hs as_ X

/-- Validation condition of /api/predict: missing/empty names, identical
teams, or a name absent from the statistics snapshot. -/
def validationCondition (arts : Artifacts) (h? a? : Option String) : Prop :=
  blankName h? ∨ blankName a? ∨ h? = a?
    ∨ lookupTeam arts.team_stats (h?.getD "") = none
    ∨ lookupTeam arts.team_stats (a?.getD "") = none

/-- C6: predict returns a validation error exactly when a name is missing
or empty, the two names coincide, or a name is unknown to the statistics
snapshot; in that case the result is independent of the scaler and the
classifier (only the statistics snapshot is consulted, so the model is
never invoked); and in particular predict("Arsenal", "Arsenal") is the
identical-teams validation error for every artifact bundle. -/
theorem c6_validation (arts : Artifacts) (h? a? : Option String) :
    (isValidationError (predict arts h? a?) = true ↔ validationCondition arts h? a?) ∧
    (∀ arts' : Artifacts, arts'.team_stats = arts.team_stats →
      validationCondition arts h? a? →
      predict arts' h? a? = predict arts h? a?) ∧
    (∀ b : Artifacts,
      predict b (some "Arsenal") (some "Arsenal")
        = .validationError "Home and away teams must be different") := by
  refine ⟨?_, ?_, ?_⟩
  · unfold validationCondition
    by_cases hb : blankName h? ∨ blankName a?
    · simp only [predict, if_pos hb, isValidationError]
      tauto
    · by_cases he : h? = a?
      · simp only [predict, if_neg hb, if_pos he, isValidationError]
        tauto
      · simp only [predict, if_neg hb, if_neg he]
        cases hL1 : lookupTeam arts.team_stats (h?.getD "") with
        | none =>
          cases hL2 : lookupTeam arts.team_stats (a?.getD "") with
          | none => simp [isValidationError]
          | some s2 => simp [isValidationError, hL2]
        | some s1 =>
          cases hL2 : lookupTeam arts.team_stats (a?.getD "") with
          | none => simp [isValidationError, hL1]
          | some s2 =>
            rw [isValidationError_predictModel]
            simp [hL1, hL2]
            tauto
  · intro arts' hts hv
    unfold predict
    rw [hts]
    by_cases hb : blankName h? ∨ blankName a?
    · rw [if_pos hb, if_pos hb]
    · by_cases he : h? = a?
      · rw [if_neg hb, if_neg hb, if_pos he, if_pos he]
      · rw [if_neg hb, if_neg hb, if_neg he, if_neg he]
        cases hL1 : lookupTeam arts.team_stats (h?.getD "") with
        | none =>
          cases hL2 : lookupTeam arts.team_stats (a?.getD "") with
          | none => rfl
          | some s2 => rfl
        | some s1 =>
          cases hL2 : lookupTeam arts.team_stats (a?.getD "") with
          | none => rfl
          | some s2 =>
            exfalso
            rcases hv with hv | hv | hv | hv | hv
            · exact hb (Or.inl hv)
            · exact hb (Or.inr hv)
            · exact he hv
            · rw [hL1] at hv; cases hv
            · rw [hL2] at hv; cases hv
  · intro b
    have hb1 : ¬ blankName (some "Arsenal") := by decide
    simp [predict, hb1]

/-- Variant artifact bundle: same statistics snapshot as artsMismatch but
a different scaler, classifier and feature_cols list. -/
def artsAlt : Artifacts :=
  { artsMismatch with
    scaler := fun _ => []
    model_predict := fun _ => 2
    model_predict_proba := fun _ => (0, 0, 1)
    feature_cols := builderSchema }

/-- Concrete instance of C6: the identical-teams request is rejected, and
a request naming the unknown team C is answered identically under two
bundles that differ in scaler and classifier. -/
theorem c6_validation_witness :
    predict artsMismatch (some "Arsenal") (some "Arsenal")
      = .validationError "Home and away teams must be different" ∧
    predict artsAlt (some "C") (some "B") = predict artsMismatch (some "C") (some "B") :=
  ⟨(c6_validation artsMismatch (some "Arsenal") (some "Arsenal")).2.2 artsMismatch,
    (c6_validation artsMismatch (some "C") (some "B")).2.1 artsAlt rfl
      (Or.inr (Or.inr (Or.inr (Or.inl (by decide)))))⟩

/-- np.argmax over three values: index of the first maximum. -/
def argmax3 (p0 p1 p2 : ℚ) : ℕ :=
  if p1 ≤ p0 ∧ p2 ≤ p0 then 0 else if p2 ≤ p1 then 1 else 2

lemma argmax3_lt_three (p0 p1 p2 : ℚ) : argmax3 p0 p1 p2 < 3 := by
  unfold argmax3
  split_ifs <;> norm_num

lemma argmax3_spec (p0 p1 p2 : ℚ) :
    (argmax3 p0 p1 p2 = 0 ∧ p1 ≤ p0 ∧ p2 ≤ p0) ∨
    (argmax3 p0 p1 p2 = 1 ∧ p0 ≤ p1 ∧ p2 ≤ p1) ∨
    (argmax3 p0 p1 p2 = 2 ∧ p0 ≤ p2 ∧ p1 ≤ p2) := by
  unfold argmax3
  split_ifs with h1 h2
  · exact Or.inl ⟨rfl, h1⟩
  · refine Or.inr (Or.inl ⟨rfl, ?_, h2⟩)
    rcases not_and_or.mp h1 with h | h
    · linarith [not_le.mp h]
    · linarith [not_le.mp h]
  · refine Or.inr (Or.inr ⟨rfl, ?_, ?_⟩)
    · rcases not_and_or.mp h1 with h | h
      · linarith [not_le.mp h, not_le.mp h2]
      · linarith [not_le.mp h]
    · linarith [not_le.mp h2]

/-- Contract of the opaque scikit-learn classifier (spec section 6:
predict_proba yields a distribution over the three classes, and predict
returns the class of maximal probability, first index on ties). -/
def WellBehavedModel (arts : Artifacts) : Prop :=
  ∀ v : List ℚ,
    ((arts.model_predict_proba v).1 + (arts.model_predict_proba v).2.1
        + (arts.model_predict_proba v).2.2 = 1) ∧
    arts.model_predict v
      = argmax3 (arts.model_predict_proba v).1 (arts.model_predict_proba v).2.1
          (arts.model_predict_proba v).2.2

lemma assembleResponse_ok_inv (arts : Artifacts) (h a : String)
    (hs as_ : TeamStats) (X : List ℚ) (r : PredictResponse)
    (hok : assembleResponse arts h a hs as_ X = .ok r) :
    outcomes[arts.model_predict (arts.scaler X)]? = some r.prediction ∧
    r.probabilities =
      [("home_win", round1 ((arts.model_predict_proba (arts.scaler X)).1 * 100)),
       ("draw", round1 ((arts.model_predict_proba (arts.scaler X)).2.1 * 100)),
       ("away_win", round1 ((arts.model_predict_proba (arts.scaler X)).2.2 * 100))] := by
  unfold assembleResponse at hok
  revert hok
  cases hl : outcomes[arts.model_predict (arts.scaler X)]? with
  | none => intro hok; exact PredictResult.noConfusion hok
  | some label =>
    intro hok
    injection hok with hr
    subst hr
    exact ⟨rfl, rfl⟩

lemma predict_ok_inv (arts : Artifacts) (h? a? : Option String)
    (r : PredictResponse) (hok : predict arts h? a? = .ok r) :
    ∃ X : List ℚ,
      outcomes[arts.model_predict (arts.scaler X)]? = some r.prediction ∧
      r.probabilities =
        [("home_win", round1 ((arts.model_predict_proba (arts.scaler X)).1 * 100)),
         ("draw", round1 ((arts.model_predict_proba (arts.scaler X)).2.1 * 100)),
         ("away_win", round1 ((arts.model_predict_proba (arts.scaler X)).2.2 * 100))] := by
  unfold predict at hok
  by_cases hb : blankName h? ∨ blankName a?
  · rw [if_pos hb] at hok
    exact PredictResult.noConfusion hok
  · rw [if_neg hb] at hok
    by_cases he : h? = a?
    · rw [if_pos he] at hok
      exact PredictResult.noConfusion hok
    · rw [if_neg he] at hok
      revert hok
      cases hL1 : lookupTeam arts.team_stats (h?.getD "") with
      | none =>
        cases hL2 : lookupTeam arts.team_stats (a?.getD "") with
        | none => intro hok; exact PredictResult.noConfusion hok
        | some s2 => intro hok; exact PredictResult.noConfusion hok
      | some hs =>
        cases hL2 : lookupTeam arts.team_stats (a?.getD "") with
        | none => intro hok; exact PredictResult.noConfusion hok
        | some as_ =>
          intro hok
          have hok1 : predictModel arts (h?.getD "") (a?.getD "") hs as_ = .ok r := hok
          unfold predictModel at hok1
          revert hok1
          cases hX : buildX arts.feature_cols (predictFeatures hs as_) with
          | none => intro hok1; exact PredictResult.noConfusion hok1
          | some X =>
            intro hok1
            exact ⟨X, assembleResponse_ok_inv arts _ _ hs as_ X r hok1⟩

/-- C7: a successful predict response carries exactly three probabilities
under the names home_win, draw, away_win, each a one-decimal rounding of
the corresponding percentage (so a multiple of 1/10); their sum lies
within 0.1 of 100; and under the classifier contract (predict returns the
argmax class of predict_proba) the returned prediction label is the
outcome at an index attaining the maximum of the returned probability
distribution — the argmax index, with ties broken as the model breaks
them. -/
theorem c7_response_contract (arts : Artifacts) (h? a? : Option String)
    (r : PredictResponse) (hwf : WellBehavedModel arts)
    (hok : predict arts h? a? = .ok r) :
    r.probabilities.map (fun p => p.1) = ["home_win", "draw", "away_win"] ∧
    (∀ q ∈ r.probabilities.map (fun p => p.2), ∃ z : ℤ, q = (z : ℚ) / 10) ∧
    |(r.probabilities.map (fun p => p.2)).sum - 100| ≤ 1/10 ∧
    ∃ i, i < 3 ∧ outcomes[i]? = some r.prediction ∧
      ∀ q ∈ r.probabilities.map (fun p => p.2),
        q ≤ (r.probabilities.map (fun p => p.2)).getD i 0 := by
  obtain ⟨X, hl, hp⟩ := predict_ok_inv arts h? a? r hok
  obtain ⟨hsum, hpred⟩ := hwf (arts.scaler X)
  set P := arts.model_predict_proba (arts.scaler X) with hP
  refine ⟨by rw [hp]; rfl, ?_, ?_, ?_⟩
  · intro q hq
    rw [hp] at hq
    simp only [List.map_cons, List.map_nil, List.mem_cons,
      List.not_mem_nil, or_false] at hq
    rcases hq with h1 | h1 | h1
    · exact ⟨bankersRound (P.1 * 100 * 10), by rw [h1]; rfl⟩
    · exact ⟨bankersRound (P.2.1 * 100 * 10), by rw [h1]; rfl⟩
    · exact ⟨bankersRound (P.2.2 * 100 * 10), by rw [h1]; rfl⟩
  · rw [hp]
    have hsum100 : P.1 * 100 + P.2.1 * 100 + P.2.2 * 100 = 100 := by linarith
    have hb := sum_round1_bound (P.1 * 100) (P.2.1 * 100) (P.2.2 * 100) hsum100
    have he : (([("home_win", round1 (P.1 * 100)), ("draw", round1 (P.2.1 * 100)),
          ("away_win", round1 (P.2.2 * 100))].map (fun p => p.2)).sum)
        = round1 (P.1 * 100) + round1 (P.2.1 * 100) + round1 (P.2.2 * 100) := by
      simp [List.sum_cons, List.sum_nil]
      ring
    rw [he]
    exact hb
  · refine ⟨argmax3 P.1 P.2.1 P.2.2, argmax3_lt_three _ _ _, ?_, ?_⟩
    · rw [hpred] at hl
      exact hl
    · intro q hq
      rw [hp] at hq ⊢
      simp only [List.map_cons, List.map_nil, List.mem_cons,
        List.not_mem_nil, or_false] at hq
      have h100 : (0 : ℚ) ≤ 100 := by norm_num
      rcases argmax3_spec P.1 P.2.1 P.2.2 with ⟨hi, ha1, ha2⟩ | ⟨hi, ha1, ha2⟩ | ⟨hi, ha1, ha2⟩
      · rw [hi]
        show q ≤ round1 (P.1 * 100)
        rcases hq with h1 | h1 | h1 <;> subst h1
        · exact le_refl _
        · exact round1_mono (mul_le_mul_of_nonneg_right ha1 h100)
        · exact round1_mono (mul_le_mul_of_nonneg_right ha2 h100)
      · rw [hi]
        show q ≤ round1 (P.2.1 * 100)
        rcases hq with h1 | h1 | h1 <;> subst h1
        · exact round1_mono (mul_le_mul_of_nonneg_right ha1 h100)
        · exact le_refl _
        · exact round1_mono (mul_le_mul_of_nonneg_right ha2 h100)
      · rw [hi]
        show q ≤ round1 (P.2.2 * 100)
        rcases hq with h1 | h1 | h1 <;> subst h1
        · exact round1_mono (mul_le_mul_of_nonneg_right ha1 h100)
        · exact round1_mono (mul_le_mul_of_nonneg_right ha2 h100)
        · exact le_refl _

/-- Demonstration bundle for the C7 witness: identity scaler and a
constant classifier whose distribution is (0.5, 0.3, 0.2) with argmax
class 0. -/
def artsDemo : Artifacts :=
  { scaler := fun v => v
    model_predict := fun _ => 0
    model_predict_proba := fun _ => (1/2, 3/10, 1/5)
    feature_cols := builderSchema
    team_stats := [("A", zeroStats), ("B", zeroStats)]
    model_type := "Random Forest"
    test_accuracy := 1/2 }

/-- Response artsDemo produces for predict("A", "B"). -/
def rDemo : PredictResponse :=
  { prediction := "Home Win"
    probabilities :=
      [("home_win", round1 ((1 : ℚ)/2 * 100)), ("draw", round1 ((3 : ℚ)/10 * 100)),
       ("away_win", round1 ((1 : ℚ)/5 * 100))]
    home_team := "A"
    away_team := "B"
    model_type := "Random Forest"
    accuracy := round1 ((1 : ℚ)/2 * 100)
    team_comparison :=
      [("home_ppg", round2 zeroStats.points_per_game),
       ("away_ppg", round2 zeroStats.points_per_game),
       ("home_goals_avg", round2 zeroStats.avg_goals_scored),
       ("away_goals_avg", round2 zeroStats.avg_goals_scored),
       ("home_win_rate", round1 (zeroStats.win_rate * 100)),
       ("away_win_rate", round1 (zeroStats.win_rate * 100))] }

/-- Concrete instance of C7 on the demonstration bundle. -/
theorem c7_response_contract_witness :
    rDemo.probabilities.map (fun p => p.1) = ["home_win", "draw", "away_win"] ∧
    (∀ q ∈ rDemo.probabilities.map (fun p => p.2), ∃ z : ℤ, q = (z : ℚ) / 10) ∧
    |(rDemo.probabilities.map (fun p => p.2)).sum - 100| ≤ 1/10 ∧
    ∃ i, i < 3 ∧ outcomes[i]? = some rDemo.prediction ∧
      ∀ q ∈ rDemo.probabilities.map (fun p => p.2),
        q ≤ (rDemo.probabilities.map (fun p => p.2)).getD i 0 :=
  c7_response_contract artsDemo (some "A") (some "B") rDemo
    (fun _ =>
      ⟨by show (1 : ℚ)/2 + 3/10 + 1/5 = 1; norm_num,
       by show (0 : ℕ) = argmax3 (1/2) (3/10) (1/5); simp only [argmax3]; norm_num⟩)
    (by rfl)

end EPL
